import Mathlib

/-!
# Thodar registry dashboard — verification development

Shallow embedding of the interactive state of the Thodar single-page
registry site: the badge helpers, the comparison-selection state machine of
`RegistryDashboardSection`, the detail-panel controller
(`CaseReviewPanel` mounted by `RegistryAndAnalyticsSections`), and the
duration formatter.  Definitions are translated from the TSX source;
where noted, missing source (`registryData.ts`) is modelled from the spec.
-/

namespace Thodar

/-! ## Badge presentational helpers (source: AlertBadge / StatusBadge / RiskBadge) -/

/-- The visual style slice of a rendered badge: background, border, text color. -/
structure BadgeStyle where
  bg : String
  border : String
  color : String
deriving Repr, DecidableEq

/-- Style entry of the `AlertBadge` config object: dot color, label text, and colors. -/
structure AlertStyle where
  dot : String
  text : String
  bg : String
  border : String
  color : String
deriving Repr, DecidableEq

/-- The `config` object literal of `AlertBadge`: keys `stable`, `review`,
`attention`.  A JS property access on any other key yields `undefined`,
embedded here as `none`. -/
def alertConfig (level : String) : Option AlertStyle :=
  if level = "stable" then
    some ⟨"#16a34a", "Stable Monitoring", "rgba(22,163,74,0.07)",
      "rgba(22,163,74,0.25)", "#15803d"⟩
  else if level = "review" then
    some ⟨"#d97706", "Review Pending", "rgba(217,119,6,0.07)",
      "rgba(217,119,6,0.25)", "#b45309"⟩
  else if level = "attention" then
    some ⟨"#dc2626", "Clinical Attention", "rgba(220,38,38,0.07)",
      "rgba(220,38,38,0.25)", "#b91c1c"⟩
  else none

/-- A rendered badge: the text shown and the style applied. -/
structure RenderedBadge where
  text : String
  style : BadgeStyle
deriving Repr, DecidableEq

/-- `AlertBadge`: reads `config[level]` and then dereferences its fields with
no default case.  When the lookup is `undefined` the field accesses
(`c.bg`, …) throw, so rendering is partial: `none` means the component
crashes rather than producing markup. -/
def AlertBadge (level : String) : Option RenderedBadge :=
  (alertConfig level).map fun c => ⟨c.text, ⟨c.bg, c.border, c.color⟩⟩

/-- The `map` object literal of `StatusBadge`: keys `Scheduled`, `Overdue`,
`Completed`. -/
def statusMap (status : String) : Option BadgeStyle :=
  if status = "Scheduled" then
    some ⟨"rgba(67,122,168,0.07)", "rgba(67,122,168,0.25)", "var(--thodar-blue)"⟩
  else if status = "Overdue" then
    some ⟨"rgba(220,38,38,0.07)", "rgba(220,38,38,0.25)", "#b91c1c"⟩
  else if status = "Completed" then
    some ⟨"rgba(22,163,74,0.07)", "rgba(22,163,74,0.25)", "#15803d"⟩
  else none

/-- The Scheduled style, `map.Scheduled` in the source. -/
def scheduledStyle : BadgeStyle :=
  ⟨"rgba(67,122,168,0.07)", "rgba(67,122,168,0.25)", "var(--thodar-blue)"⟩

/-- `StatusBadge`: `const c = map[status] ?? map.Scheduled` — total, with the
Scheduled style as the default for unrecognized values; the badge text is
the raw status string. -/
def StatusBadge (status : String) : RenderedBadge :=
  ⟨status, (statusMap status).getD scheduledStyle⟩

/-- The `map` object literal of `RiskBadge`: keys `Low`, `Moderate`, `High`. -/
def riskMap (level : String) : Option BadgeStyle :=
  if level = "Low" then
    some ⟨"rgba(22,163,74,0.07)", "rgba(22,163,74,0.25)", "#15803d"⟩
  else if level = "Moderate" then
    some ⟨"rgba(217,119,6,0.07)", "rgba(217,119,6,0.25)", "#b45309"⟩
  else if level = "High" then
    some ⟨"rgba(220,38,38,0.07)", "rgba(220,38,38,0.25)", "#b91c1c"⟩
  else none

/-- `RiskBadge`: reads `map[level]` and dereferences its fields with no
default case, so like `AlertBadge` it is partial: `none` means a crash. -/
def RiskBadge (level : String) : Option RenderedBadge :=
  (riskMap level).map fun c => ⟨level, ⟨c.bg, c.border, c.color⟩⟩

/-! ## The implant record and registry

`registryData.ts` (exporting `ImplantRecord`, `REGISTRY_DATA`,
`getImplantDuration`) is imported by the dashboard source but is not part
of the source tree available here, so the record shape and the registry
are modelled from the spec. -/

/-- Modelled from the spec: the `ImplantRecord` shape exported by the missing
`registryData.ts` — identity, clinical, device and lifecycle attributes;
`followUpStatus`, `alertLevel`, `riskLevel` drawn from closed enumerations. -/
structure ImplantRecord where
  id : String
  patientId : String
  age : Nat
  sex : String
  primaryDiagnosis : String
  comorbidities : String
  institution : String
  operatingSurgeon : String
  implantCategory : String
  manufacturer : String
  modelReference : String
  lotNumber : String
  material : String
  fixationType : String
  anatomicalSite : String
  laterality : String
  surgeryDate : String
  revisionHistory : String
  complicationsLogged : Nat
  lastReviewDate : String
  nextReviewDate : String
  followUpStatus : String
  alertLevel : String
  riskLevel : String
deriving Repr, DecidableEq

/-- Helper to build a registry record; fields not exercised by the dashboard
logic receive generic illustrative values. -/
def mkRecord (id patientId surgeryDate followUpStatus alertLevel riskLevel : String) : ImplantRecord :=
  { id := id
    patientId := patientId
    age := 60
    sex := "F"
    primaryDiagnosis := "Osteoarthritis"
    comorbidities := "None"
    institution := "Regional Orthopedic Center"
    operatingSurgeon := "Dr. Rao"
    implantCategory := "Total Knee Replacement"
    manufacturer := "OrthoWorks"
    modelReference := "OW-TKR-10"
    lotNumber := "L-1000"
    material := "Cobalt-Chromium"
    fixationType := "Cemented"
    anatomicalSite := "Knee"
    laterality := "Left"
    surgeryDate := surgeryDate
    revisionHistory := "None"
    complicationsLogged := 0
    lastReviewDate := "2024-01-10"
    nextReviewDate := "2025-01-10"
    followUpStatus := followUpStatus
    alertLevel := alertLevel
    riskLevel := riskLevel }

/-- Modelled from the spec: `REGISTRY_DATA`, the fixed in-memory dataset of
exactly 10 records with unique `id` values and enum-valid status fields
(the concrete field values are illustrative, the invariants are the
spec's). -/
def REGISTRY_DATA : List ImplantRecord :=
  [ mkRecord "TR-001" "PT-2041" "2019-03-14" "Scheduled" "stable" "Low"
  , mkRecord "TR-002" "PT-2057" "2020-07-02" "Overdue" "review" "Moderate"
  , mkRecord "TR-003" "PT-2063" "2021-01-21" "Completed" "stable" "Low"
  , mkRecord "TR-004" "PT-2070" "2018-11-05" "Scheduled" "attention" "High"
  , mkRecord "TR-005" "PT-2082" "2022-05-18" "Scheduled" "stable" "Low"
  , mkRecord "TR-006" "PT-2095" "2017-09-30" "Overdue" "review" "Moderate"
  , mkRecord "TR-007" "PT-2101" "2023-02-11" "Completed" "stable" "Low"
  , mkRecord "TR-008" "PT-2114" "2016-12-01" "Scheduled" "attention" "High"
  , mkRecord "TR-009" "PT-2127" "2021-08-23" "Scheduled" "stable" "Low"
  , mkRecord "TR-010" "PT-2139" "2020-04-09" "Completed" "review" "Moderate" ]

/-! ## Comparison-selection state of `RegistryDashboardSection`

The component-local state is the three `useState` hooks:
`comparisonMode`, `selectedIds`, `showComparison`. -/

/-- The dashboard view state: comparison mode switch, ordered list of
selected record ids, and visibility of the comparison panel. -/
structure DashState where
  comparisonMode : Bool
  selectedIds : List String
  showComparison : Bool
deriving Repr, DecidableEq

/-- Initial hook values: `useState(false)`, `useState([])`, `useState(false)`. -/
def initialDash : DashState := ⟨false, [], false⟩

/-- The blocking notice text passed to `alert(...)` in `toggleSelection`. -/
def maxSelectionAlert : String :=
  "A maximum of 3 implant cases may be selected for comparative review."

/-- `toggleSelection(id)`: if already selected, filter it out; else if 3 or
more are selected, alert and return unchanged; else append.  The second
component is the alert message surfaced, if any. -/
def toggleSelection (s : DashState) (id : String) : DashState × Option String :=
  if id ∈ s.selectedIds then
    ({ s with selectedIds := s.selectedIds.filter (· ≠ id) }, none)
  else if 3 ≤ s.selectedIds.length then
    (s, some maxSelectionAlert)
  else
    ({ s with selectedIds := s.selectedIds ++ [id] }, none)

/-- The `Switch` `onCheckedChange` handler: set `comparisonMode` to `val`;
when turning off, also clear the selection and hide the comparison panel. -/
def setComparisonMode (s : DashState) (val : Bool) : DashState :=
  if val then { s with comparisonMode := true }
  else { comparisonMode := false, selectedIds := [], showComparison := false }

/-- The "Clear selection" button handler: empty the selection and hide the
comparison panel. -/
def clearSelection (s : DashState) : DashState :=
  { s with selectedIds := [], showComparison := false }

/-- The "Compare Selected" button handler: `setShowComparison(true)`. -/
def compareSelected (s : DashState) : DashState :=
  { s with showComparison := true }

/-- The comparison panel's close control (`×`): `setShowComparison(false)`. -/
def closeComparison (s : DashState) : DashState :=
  { s with showComparison := false }

/-- `selectedRecords = REGISTRY_DATA.filter((r) => selectedIds.includes(r.id))`:
note the order is the registry's, not the selection's. -/
def selectedRecords (registry : List ImplantRecord) (s : DashState) : List ImplantRecord :=
  registry.filter (fun r => r.id ∈ s.selectedIds)

/-- Render guard of the comparison panel:
`comparisonMode && showComparison && selectedRecords.length >= 2`. -/
def comparisonTableShown (registry : List ImplantRecord) (s : DashState) : Bool :=
  s.comparisonMode && s.showComparison && 2 ≤ (selectedRecords registry s).length

/-- Render guard of the "Compare Selected" button: the controls block is
rendered when `comparisonMode` holds, and the button when
`selectedIds.length >= 2`. -/
def compareButtonShown (s : DashState) : Bool :=
  s.comparisonMode && 2 ≤ s.selectedIds.length

/-- Render guard of the "Clear selection" button: inside the
comparison-mode controls block, shown when `selectedIds.length > 0`. -/
def clearButtonShown (s : DashState) : Bool :=
  s.comparisonMode && 0 < s.selectedIds.length

/-- The comparison table's header row: one `Attribute` label column followed
by one column per entry of `selectedRecords`, titled by `patientId`. -/
def comparisonHeaderColumns (registry : List ImplantRecord) (s : DashState) : List String :=
  "Attribute" :: (selectedRecords registry s).map (·.patientId)

/-- The header row the spec describes: the record columns in the order the
rows were selected (`selectedIds` order), resolving each id in the
registry.  Stated from the spec's words, for comparison with
`comparisonHeaderColumns`. -/
def selectionOrderColumns (registry : List ImplantRecord) (s : DashState) : List String :=
  "Attribute" ::
    s.selectedIds.filterMap
      (fun i => (registry.find? (fun r => r.id = i)).map (·.patientId))

/-- One UI-driven transition of the dashboard state: each constructor is an
interaction the rendered page actually offers in the pre-state (row
clicks toggle the selection only in comparison mode; the compare, clear
and close controls exist only under their render guards). -/
inductive DashStep (registry : List ImplantRecord) : DashState → DashState → Prop
  | toggle (s : DashState) (id : String)
      (hm : s.comparisonMode = true) (hid : id ∈ registry.map (·.id)) :
      DashStep registry s (toggleSelection s id).1
  | setMode (s : DashState) (val : Bool) :
      DashStep registry s (setComparisonMode s val)
  | compare (s : DashState) (h : compareButtonShown s = true) :
      DashStep registry s (compareSelected s)
  | clear (s : DashState) (h : clearButtonShown s = true) :
      DashStep registry s (clearSelection s)
  | close (s : DashState) (h : comparisonTableShown registry s = true) :
      DashStep registry s (closeComparison s)

/-- A dashboard state reachable from the initial hook values through
UI-driven transitions. -/
def DashReachable (registry : List ImplantRecord) (s : DashState) : Prop :=
  Relation.ReflTransGen (DashStep registry) initialDash s

/-- The state invariant: the selection is duplicate-free, capped at 3,
contains only registry ids, and is empty (with the panel hidden) whenever
comparison mode is off. -/
def DashInv (registry : List ImplantRecord) (s : DashState) : Prop :=
  s.selectedIds.Nodup ∧ s.selectedIds.length ≤ 3 ∧
    (∀ i ∈ s.selectedIds, i ∈ registry.map (·.id)) ∧
    (s.comparisonMode = false → s.selectedIds = [] ∧ s.showComparison = false)

theorem dashInv_initial (registry : List ImplantRecord) : DashInv registry initialDash := by
  refine ⟨List.nodup_nil, by simp [initialDash], ?_, ?_⟩ <;> simp [initialDash]

theorem dashInv_step {registry : List ImplantRecord} {s t : DashState}
    (hstep : DashStep registry s t) (hinv : DashInv registry s) : DashInv registry t := by
  obtain ⟨hnd, hlen, hsub, hoff⟩ := hinv
  cases hstep with
  | toggle id hm hid =>
    unfold toggleSelection
    by_cases hmem : id ∈ s.selectedIds
    · simp only [hmem, if_pos]
      refine ⟨hnd.filter _, ?_, ?_, ?_⟩
      · exact le_trans (s.selectedIds.length_filter_le _) hlen
      · intro i hi
        exact hsub i (List.mem_of_mem_filter hi)
      · intro hcontra
        simp [hm] at hcontra
    · simp only [hmem, if_neg, if_false, List.mem_iff_get]
      by_cases hcap : 3 ≤ s.selectedIds.length
      · simp only [hcap, if_pos]
        exact ⟨hnd, hlen, hsub, fun hcontra => by simp [hm] at hcontra⟩
      · simp only [hcap, if_neg, if_false]
        refine ⟨?_, ?_, ?_, ?_⟩
        · simp [List.nodup_append, hnd, hmem]
        · simp only [List.length_append, List.length_singleton]
          omega
        · intro i hi
          rcases List.mem_append.mp hi with h | h
          · exact hsub i h
          · simp at h
            exact h ▸ hid
        · intro hcontra
          simp [hm] at hcontra
  | setMode val =>
    cases val with
    | false => exact ⟨List.nodup_nil, by simp [setComparisonMode], by simp [setComparisonMode],
        by simp [setComparisonMode]⟩
    | true => exact ⟨hnd, hlen, hsub, by simp [setComparisonMode]⟩
  | compare h =>
    refine ⟨hnd, hlen, hsub, ?_⟩
    intro hcontra
    simp only [compareSelected] at hcontra
    simp [compareButtonShown, hcontra] at h
  | clear h =>
    refine ⟨List.nodup_nil, ?_, ?_, ?_⟩ <;> simp [clearSelection]
  | close h =>
    refine ⟨hnd, hlen, hsub, ?_⟩
    intro hcontra
    simp only [closeComparison] at hcontra
    simp [comparisonTableShown, hcontra] at h

theorem dashInv_of_reachable {registry : List ImplantRecord} {s : DashState}
    (h : DashReachable registry s) : DashInv registry s := by
  induction h with
  | refl => exact dashInv_initial registry
  | tail _ step ih => exact dashInv_step step ih

/-- Under duplicate-free ids on both sides, the registry filter backing
`selectedRecords` hits exactly one record per selected id. -/
theorem selectedRecords_length {registry : List ImplantRecord} {s : DashState}
    (hreg : (registry.map (·.id)).Nodup) (hnd : s.selectedIds.Nodup)
    (hsub : ∀ i ∈ s.selectedIds, i ∈ registry.map (·.id)) :
    (selectedRecords registry s).length = s.selectedIds.length := by
  apply le_antisymm
  · have hsl : List.Sublist ((selectedRecords registry s).map (·.id)) (registry.map (·.id)) :=
      (List.filter_sublist _).map _
    have hnd2 : ((selectedRecords registry s).map (·.id)).Nodup := hsl.nodup hreg
    have hss : ((selectedRecords registry s).map (·.id)) ⊆ s.selectedIds := by
      intro i hi
      rcases List.mem_map.mp hi with ⟨r, hr, rfl⟩
      have := List.mem_filter.mp hr
      simpa using this.2
    calc (selectedRecords registry s).length
        = ((selectedRecords registry s).map (·.id)).length := (List.length_map _ _).symm
      _ ≤ s.selectedIds.length := (hnd2.subperm hss).length_le
  · have hss : s.selectedIds ⊆ (selectedRecords registry s).map (·.id) := by
      intro i hi
      rcases List.mem_map.mp (hsub i hi) with ⟨r, hr, rfl⟩
      exact List.mem_map.mpr ⟨r, List.mem_filter.mpr ⟨hr, by simpa using hi⟩, rfl⟩
    calc s.selectedIds.length
        ≤ ((selectedRecords registry s).map (·.id)).length := (hnd.subperm hss).length_le
      _ = (selectedRecords registry s).length := List.length_map _ _

/-- C4: with exactly 3 records selected, toggling a 4th distinct identifier
is rejected — the state is returned unchanged and the blocking
"maximum of 3" notice is surfaced. -/
theorem toggle_at_cap_rejected (s : DashState) (id : String)
    (hnew : id ∉ s.selectedIds) (hcap : s.selectedIds.length = 3) :
    toggleSelection s id = (s, some maxSelectionAlert) := by
  unfold toggleSelection
  simp [hnew, hcap]

/-- Witness for C4 at a concrete full selection. -/
theorem toggle_at_cap_rejected_witness :
    toggleSelection ⟨true, ["TR-001", "TR-002", "TR-003"], false⟩ "TR-004"
      = (⟨true, ["TR-001", "TR-002", "TR-003"], false⟩, some maxSelectionAlert) :=
  toggle_at_cap_rejected _ _ (by decide) (by decide)

/-- C5: in every reachable dashboard state the selection is a duplicate-free
list of at most 3 identifiers, and each selection operation (toggle,
clear, turning the mode off) preserves this shape. -/
theorem selection_is_bounded_set (registry : List ImplantRecord) (s : DashState)
    (hs : DashReachable registry s) :
    (s.selectedIds.Nodup ∧ s.selectedIds.length ≤ 3) ∧
    (∀ t : DashState, t.selectedIds.Nodup ∧ t.selectedIds.length ≤ 3 →
      ∀ id : String,
        ((toggleSelection t id).1.selectedIds.Nodup ∧
          (toggleSelection t id).1.selectedIds.length ≤ 3) ∧
        ((clearSelection t).selectedIds.Nodup ∧
          (clearSelection t).selectedIds.length ≤ 3) ∧
        ((setComparisonMode t false).selectedIds.Nodup ∧
          (setComparisonMode t false).selectedIds.length ≤ 3)) := by
  obtain ⟨hnd, hlen, _, _⟩ := dashInv_of_reachable hs
  refine ⟨⟨hnd, hlen⟩, ?_⟩
  rintro t ⟨tnd, tlen⟩ id
  refine ⟨?_, ⟨List.nodup_nil, by simp [clearSelection]⟩,
    ⟨List.nodup_nil, by simp [setComparisonMode]⟩⟩
  unfold toggleSelection
  by_cases hmem : id ∈ t.selectedIds
  · simp only [hmem, if_pos]
    exact ⟨tnd.filter _, le_trans (t.selectedIds.length_filter_le _) tlen⟩
  · simp only [hmem, if_neg, if_false]
    by_cases hcap : 3 ≤ t.selectedIds.length
    · simp only [hcap, if_pos]
      exact ⟨tnd, tlen⟩
    · simp only [hcap, if_neg, if_false]
      constructor
      · simp [List.nodup_append, tnd, hmem]
      · simp only [List.length_append, List.length_singleton]
        omega

/-- Witness for C5 at the initial state. -/
theorem selection_is_bounded_set_witness :
    (initialDash.selectedIds.Nodup ∧ initialDash.selectedIds.length ≤ 3) :=
  (selection_is_bounded_set REGISTRY_DATA initialDash Relation.ReflTransGen.refl).1

/-- C6: turning comparison mode off collapses any state to the inactive one
(empty selection, panel hidden, table no longer rendered); in every
reachable state with the mode off the selection is already empty, so
enabling the mode starts `collecting` with an empty selection. -/
theorem mode_off_clears (registry : List ImplantRecord) (s : DashState)
    (hs : DashReachable registry s) :
    (setComparisonMode s false = ⟨false, [], false⟩ ∧
      comparisonTableShown registry (setComparisonMode s false) = false) ∧
    (s.comparisonMode = false →
      s.selectedIds = [] ∧ s.showComparison = false ∧
        setComparisonMode s true = ⟨true, [], false⟩) := by
  refine ⟨⟨rfl, by simp [comparisonTableShown, setComparisonMode]⟩, ?_⟩
  intro hoff
  obtain ⟨_, _, _, hmode⟩ := dashInv_of_reachable hs
  obtain ⟨hids, hshow⟩ := hmode hoff
  refine ⟨hids, hshow, ?_⟩
  obtain ⟨m, ids, sh⟩ := s
  simp only at hids hshow
  simp [setComparisonMode, hids, hshow]

/-- Witness for C6 at the initial (mode off) state. -/
theorem mode_off_clears_witness :
    initialDash.selectedIds = [] ∧ initialDash.showComparison = false ∧
      setComparisonMode initialDash true = ⟨true, [], false⟩ :=
  (mode_off_clears REGISTRY_DATA initialDash Relation.ReflTransGen.refl).2 rfl

/-- C7: the compare action's render guard demands comparison mode plus at
least 2 selected ids, and in any reachable state in which the comparison
table is rendered the mode is on and at least 2 records are selected. -/
theorem table_shown_requires_ready (registry : List ImplantRecord) (s : DashState)
    (hreg : (registry.map (·.id)).Nodup)
    (hs : DashReachable registry s)
    (hshown : comparisonTableShown registry s = true) :
    s.comparisonMode = true ∧ 2 ≤ s.selectedIds.length ∧
      2 ≤ (selectedRecords registry s).length ∧ s.showComparison = true ∧
      (∀ t : DashState, compareButtonShown t = true →
        t.comparisonMode = true ∧ 2 ≤ t.selectedIds.length) := by
  obtain ⟨hnd, _, hsub, _⟩ := dashInv_of_reachable hs
  simp only [comparisonTableShown, Bool.and_eq_true, decide_eq_true_eq] at hshown
  obtain ⟨⟨hmode, hshow⟩, hlen⟩ := hshown
  refine ⟨hmode, ?_, hlen, hshow, ?_⟩
  · rwa [selectedRecords_length hreg hnd hsub] at hlen
  · intro t ht
    simp only [compareButtonShown, Bool.and_eq_true, decide_eq_true_eq] at ht
    exact ht

/-- The end-to-end scenario: enable comparison mode, click the row of
TR-002, then the row of TR-001, then "Compare Selected". -/
def compareScenario : DashState :=
  compareSelected
    ((toggleSelection
      ((toggleSelection (setComparisonMode initialDash true) "TR-002").1) "TR-001").1)

/-- The scenario state is reachable through UI-driven transitions. -/
theorem compareScenario_reachable : DashReachable REGISTRY_DATA compareScenario := by
  refine Relation.ReflTransGen.tail (Relation.ReflTransGen.tail (Relation.ReflTransGen.tail
    (Relation.ReflTransGen.tail Relation.ReflTransGen.refl
      (DashStep.setMode initialDash true))
      (DashStep.toggle _ "TR-002" rfl (by decide)))
      (DashStep.toggle _ "TR-001" rfl (by decide)))
      (DashStep.compare _ ?_)
  decide

/-- Witness for C7 at the concrete scenario state. -/
theorem table_shown_requires_ready_witness :
    compareScenario.comparisonMode = true ∧ 2 ≤ compareScenario.selectedIds.length ∧
      2 ≤ (selectedRecords REGISTRY_DATA compareScenario).length ∧
      compareScenario.showComparison = true ∧
      (∀ t : DashState, compareButtonShown t = true →
        t.comparisonMode = true ∧ 2 ≤ t.selectedIds.length) :=
  table_shown_requires_ready REGISTRY_DATA compareScenario (by decide)
    compareScenario_reachable (by decide)

/-- C1 counterexample: selecting the row of TR-002 first and TR-001 second
and activating compare renders the record columns as PT-2041 (TR-001's
patient) before PT-2057 (TR-002's) — registry order — while the
selection order was TR-002 before TR-001; the claimed selection-order
header differs. -/
theorem comparison_columns_not_selection_order :
    DashReachable REGISTRY_DATA compareScenario ∧
    compareScenario.selectedIds = ["TR-002", "TR-001"] ∧
    comparisonTableShown REGISTRY_DATA compareScenario = true ∧
    comparisonHeaderColumns REGISTRY_DATA compareScenario
      = ["Attribute", "PT-2041", "PT-2057"] ∧
    selectionOrderColumns REGISTRY_DATA compareScenario
      = ["Attribute", "PT-2057", "PT-2041"] ∧
    comparisonHeaderColumns REGISTRY_DATA compareScenario
      ≠ selectionOrderColumns REGISTRY_DATA compareScenario :=
  ⟨compareScenario_reachable, by decide, by decide, by decide, by decide, by decide⟩

/-- C1 amended: the comparison header is the attribute-label column followed
by one column per selected record, the record columns ordered as the
registry lists them (the filter keeps registry order), with exactly one
column per selected id. -/
theorem comparison_columns_registry_order (registry : List ImplantRecord) (s : DashState)
    (hreg : (registry.map (·.id)).Nodup) (hnd : s.selectedIds.Nodup)
    (hsub : ∀ i ∈ s.selectedIds, i ∈ registry.map (·.id)) :
    comparisonHeaderColumns registry s
      = "Attribute" :: (selectedRecords registry s).map (·.patientId) ∧
    List.Sublist (selectedRecords registry s) registry ∧
    (comparisonHeaderColumns registry s).length = 1 + s.selectedIds.length := by
  refine ⟨rfl, List.filter_sublist _, ?_⟩
  simp [comparisonHeaderColumns, selectedRecords_length hreg hnd hsub, Nat.add_comm]

/-- Witness for the amended C1 at the concrete scenario state. -/
theorem comparison_columns_registry_order_witness :
    comparisonHeaderColumns REGISTRY_DATA compareScenario
      = "Attribute" :: (selectedRecords REGISTRY_DATA compareScenario).map (·.patientId) ∧
    List.Sublist (selectedRecords REGISTRY_DATA compareScenario) REGISTRY_DATA ∧
    (comparisonHeaderColumns REGISTRY_DATA compareScenario).length
      = 1 + compareScenario.selectedIds.length :=
  comparison_columns_registry_order REGISTRY_DATA compareScenario
    (by decide) (by decide) (by decide)

/-- The scenario behind the spec's deselection example: comparison mode on,
TR-001, TR-002, TR-003 selected in that order, comparison table shown. -/
def threeCompareScenario : DashState :=
  compareSelected
    ((toggleSelection
      ((toggleSelection
        ((toggleSelection (setComparisonMode initialDash true) "TR-001").1)
        "TR-002").1)
      "TR-003").1)

/-- The three-record comparing state is reachable through UI transitions. -/
theorem threeCompareScenario_reachable :
    DashReachable REGISTRY_DATA threeCompareScenario := by
  refine Relation.ReflTransGen.tail (Relation.ReflTransGen.tail (Relation.ReflTransGen.tail
    (Relation.ReflTransGen.tail (Relation.ReflTransGen.tail Relation.ReflTransGen.refl
      (DashStep.setMode initialDash true))
      (DashStep.toggle _ "TR-001" rfl (by decide)))
      (DashStep.toggle _ "TR-002" rfl (by decide)))
      (DashStep.toggle _ "TR-003" rfl (by decide)))
      (DashStep.compare _ ?_)
  decide

/-- C3 counterexample: deselecting TR-002 from the comparing state with
selection TR-001, TR-002, TR-003 does leave the selection at
TR-001, TR-003 — but the comparison table is still rendered (2 records
remain selected), so the machine stays in `comparing` rather than
returning to `collecting`. -/
theorem deselect_from_three_stays_comparing :
    DashReachable REGISTRY_DATA threeCompareScenario ∧
    comparisonTableShown REGISTRY_DATA threeCompareScenario = true ∧
    (toggleSelection threeCompareScenario "TR-002").1.selectedIds
      = ["TR-001", "TR-003"] ∧
    comparisonTableShown REGISTRY_DATA
      (toggleSelection threeCompareScenario "TR-002").1 = true :=
  ⟨threeCompareScenario_reachable, by decide, by decide, by decide⟩

/-- The comparison panel's render guard fails whenever fewer than 2 selected
records remain. -/
theorem tableShown_false_of_few (registry : List ImplantRecord) (t : DashState)
    (h : (selectedRecords registry t).length < 2) :
    comparisonTableShown registry t = false := by
  simp only [comparisonTableShown]
  have hd : decide (2 ≤ (selectedRecords registry t).length) = false := by
    simp only [decide_eq_false_iff_not]
    omega
  simp [hd]

/-- C3 amended: toggling an already-selected identifier removes exactly it,
surfacing no notice and leaving the mode and panel-visibility flags
untouched; the table disappears (comparing returns to collecting) only
when fewer than 2 selected records remain.  In particular deselecting
TR-002 from the comparing state with TR-001, TR-002, TR-003 selected
leaves TR-001, TR-003 selected with the table still shown. -/
theorem toggle_selected_removes (registry : List ImplantRecord) (s : DashState)
    (id : String) (h : id ∈ s.selectedIds) :
    (toggleSelection s id).1.selectedIds = s.selectedIds.filter (· ≠ id) ∧
    (toggleSelection s id).1.comparisonMode = s.comparisonMode ∧
    (toggleSelection s id).1.showComparison = s.showComparison ∧
    (toggleSelection s id).2 = none ∧
    ((selectedRecords registry (toggleSelection s id).1).length < 2 →
      comparisonTableShown registry (toggleSelection s id).1 = false) := by
  unfold toggleSelection
  simp only [h, if_pos]
  refine ⟨by simp, by simp, by simp, by simp, fun hlt => tableShown_false_of_few registry _ hlt⟩

/-- Witness for the amended C3 at the concrete deselection scenario. -/
theorem toggle_selected_removes_witness :
    (toggleSelection threeCompareScenario "TR-002").1.selectedIds
      = threeCompareScenario.selectedIds.filter (· ≠ "TR-002") ∧
    (toggleSelection threeCompareScenario "TR-002").1.comparisonMode
      = threeCompareScenario.comparisonMode ∧
    (toggleSelection threeCompareScenario "TR-002").1.showComparison
      = threeCompareScenario.showComparison ∧
    (toggleSelection threeCompareScenario "TR-002").2 = none ∧
    ((selectedRecords REGISTRY_DATA
        (toggleSelection threeCompareScenario "TR-002").1).length < 2 →
      comparisonTableShown REGISTRY_DATA
        (toggleSelection threeCompareScenario "TR-002").1 = false) :=
  toggle_selected_removes REGISTRY_DATA threeCompareScenario "TR-002" (by decide)

/-- C10: the comparison panel's close control only hides the panel — the
mode flag, the selection, and the derived selected records are
untouched, the table's render guard goes false, the "Compare Selected"
button's availability is unchanged, and pressing it again restores the
panel over the same selection. -/
theorem close_comparison_hides_only (registry : List ImplantRecord) (s : DashState) :
    (closeComparison s).comparisonMode = s.comparisonMode ∧
    (closeComparison s).selectedIds = s.selectedIds ∧
    (closeComparison s).showComparison = false ∧
    comparisonTableShown registry (closeComparison s) = false ∧
    selectedRecords registry (closeComparison s) = selectedRecords registry s ∧
    compareButtonShown (closeComparison s) = compareButtonShown s ∧
    compareSelected (closeComparison s) = { s with showComparison := true } := by
  refine ⟨rfl, rfl, rfl, ?_, rfl, rfl, rfl⟩
  simp [comparisonTableShown, closeComparison]

/-- C2 counterexample: an out-of-enum alert level makes `AlertBadge` look up
an undefined config entry and dereference its fields — no fallback, no
rendered output (`none` = crash); `RiskBadge` behaves the same, and only
`StatusBadge` actually falls back to the Scheduled treatment. -/
theorem alert_and_risk_badges_crash_on_unknown :
    AlertBadge "critical" = none ∧
    RiskBadge "Severe" = none ∧
    (StatusBadge "Unknown").style = scheduledStyle := by
  refine ⟨by decide, by decide, by decide⟩

/-- C2 amended: `StatusBadge` is total — unrecognized statuses render with
the Scheduled style and the raw text; `AlertBadge` and `RiskBadge` render
exactly on their closed enumerations and produce no output (the
component throws) elsewhere. -/
theorem badge_fallback (v : String) :
    (StatusBadge v).text = v ∧
    (v ≠ "Scheduled" → v ≠ "Overdue" → v ≠ "Completed" →
      (StatusBadge v).style = scheduledStyle) ∧
    ((AlertBadge v).isSome ↔ v = "stable" ∨ v = "review" ∨ v = "attention") ∧
    ((RiskBadge v).isSome ↔ v = "Low" ∨ v = "Moderate" ∨ v = "High") := by
  refine ⟨rfl, ?_, ?_, ?_⟩
  · intro h1 h2 h3
    simp [StatusBadge, statusMap, h1, h2, h3]
  · unfold AlertBadge alertConfig
    split_ifs <;> simp_all
  · unfold RiskBadge riskMap
    split_ifs <;> simp_all

/-- Witness for the amended C2 at an out-of-enum status value. -/
theorem badge_fallback_witness :
    (StatusBadge "critical").style = scheduledStyle :=
  (badge_fallback "critical").2.1 (by decide) (by decide) (by decide)

/-! ## Detail panel controller (`CaseReviewPanel` / `RegistryAndAnalyticsSections`)

`RegistryAndAnalyticsSections` owns `selectedRecord`; the panel is
rendered exactly when it is non-null.  `CaseReviewPanel`'s effect, on
mount, attaches a `keydown` listener and sets `document.body.style.overflow`
to `"hidden"`; its cleanup removes the listener and sets the overflow back
to `""`.  The backdrop click, the Escape handler, and the close control all
call `onClose`, which nulls `selectedRecord` and thereby unmounts the
panel, running the cleanup; so does unmounting the whole section. -/

/-- Page-level view state: the open-record pointer plus the The document-global
resources the panel's effect owns (body overflow value, keydown listener). -/
structure PageState where
  openRecord : Option ImplantRecord
  bodyOverflow : String
  keydownListener : Bool
deriving Repr, DecidableEq

/-- Initial page state: no record open, default body overflow, no listener. -/
def initialPage : PageState := ⟨none, "", false⟩

/-- The panel effect body: attach the keydown listener, hide body overflow. -/
def mountPanelEffects (p : PageState) : PageState :=
  { p with bodyOverflow := "hidden", keydownListener := true }

/-- The panel effect cleanup: remove the listener, restore body overflow. -/
def cleanupPanelEffects (p : PageState) : PageState :=
  { p with bodyOverflow := "", keydownListener := false }

/-- `setSelectedRecord(record)`: the panel mounts and its effect runs. -/
def openRecordAction (p : PageState) (r : ImplantRecord) : PageState :=
  mountPanelEffects { p with openRecord := some r }

/-- `onClose` (= `setSelectedRecord(null)`): the panel unmounts and its
effect cleanup runs. -/
def closePanelAction (p : PageState) : PageState :=
  cleanupPanelEffects { p with openRecord := none }

/-- The page-level interactions that touch the panel state. -/
inductive PageEvent
  | openRow (r : ImplantRecord)
  | closeControl
  | backdropClick
  | escapeKey
  | unmountSection
deriving Repr, DecidableEq

/-- One interaction step.  A row click opens the panel only when none is
open (the open panel's backdrop covers the page); the close control and
the backdrop exist only while the panel is rendered; the Escape handler
fires only while the keydown listener is attached; unmounting the whole
section runs the panel's cleanup if it was mounted. -/
def pageStep (p : PageState) : PageEvent → PageState
  | .openRow r => if p.openRecord.isNone then openRecordAction p r else p
  | .closeControl => if p.openRecord.isSome then closePanelAction p else p
  | .backdropClick => if p.openRecord.isSome then closePanelAction p else p
  | .escapeKey => if p.keydownListener then closePanelAction p else p
  | .unmountSection => if p.openRecord.isSome then closePanelAction p else p

/-- A page state reachable from the initial one by a sequence of
interactions. -/
def PageReachable (p : PageState) : Prop :=
  ∃ evs : List PageEvent, p = evs.foldl pageStep initialPage

/-- The resource invariant: overflow is `"hidden"` with the listener attached
exactly while a record is open, and restored to `""` with the listener
removed otherwise. -/
def PageInv (p : PageState) : Prop :=
  (p.bodyOverflow = if p.openRecord.isSome then "hidden" else "") ∧
    p.keydownListener = p.openRecord.isSome

theorem pageInv_step {p : PageState} (e : PageEvent) (h : PageInv p) :
    PageInv (pageStep p e) := by
  obtain ⟨hov, hkl⟩ := h
  cases e <;>
    simp only [pageStep, openRecordAction, closePanelAction,
      mountPanelEffects, cleanupPanelEffects] <;>
    split_ifs <;>
    simp_all [PageInv]

theorem pageInv_of_reachable {p : PageState} (h : PageReachable p) : PageInv p := by
  obtain ⟨evs, rfl⟩ := h
  suffices hgen : ∀ q : PageState, PageInv q → PageInv (evs.foldl pageStep q) from
    hgen initialPage ⟨rfl, rfl⟩
  induction evs with
  | nil => exact fun q h => h
  | cons e t ih => exact fun q h => ih _ (pageInv_step e h)

/-- C8: in every reachable page state the scroll lock and the global key
listener are present exactly while a record is open; opening a record
engages them, and each close path — close control, backdrop click,
Escape, unmounting the section — restores the body overflow to its
original value and removes the listener. -/
theorem scroll_lock_exact (p : PageState) (hp : PageReachable p) :
    (p.openRecord.isSome → p.bodyOverflow = "hidden" ∧ p.keydownListener = true) ∧
    (p.openRecord = none → p.bodyOverflow = "" ∧ p.keydownListener = false) ∧
    (∀ r : ImplantRecord, p.openRecord = none →
      (pageStep p (PageEvent.openRow r)).openRecord = some r ∧
      (pageStep p (PageEvent.openRow r)).bodyOverflow = "hidden" ∧
      (pageStep p (PageEvent.openRow r)).keydownListener = true) ∧
    (p.openRecord.isSome →
      ∀ e ∈ [PageEvent.closeControl, PageEvent.backdropClick,
          PageEvent.escapeKey, PageEvent.unmountSection],
        (pageStep p e).openRecord = none ∧
        (pageStep p e).bodyOverflow = "" ∧
        (pageStep p e).keydownListener = false) := by
  obtain ⟨hov, hkl⟩ := pageInv_of_reachable hp
  refine ⟨?_, ?_, ?_, ?_⟩
  · intro hsome
    simp [hsome] at hov hkl
    exact ⟨hov, hkl⟩
  · intro hnone
    simp [hnone] at hov hkl
    exact ⟨hov, hkl⟩
  · intro r hnone
    simp [pageStep, hnone, openRecordAction, mountPanelEffects]
  · intro hsome e he
    have hkl2 : p.keydownListener = true := by simp [hsome] at hkl; exact hkl
    fin_cases he <;>
      simp [pageStep, hsome, hkl2, closePanelAction, cleanupPanelEffects]

/-- Witness for C8: open the first registry record from the initial page,
then exercise the theorem there. -/
theorem scroll_lock_exact_witness :
    ((pageStep initialPage (PageEvent.openRow
        (mkRecord "TR-001" "PT-2041" "2019-03-14" "Scheduled" "stable" "Low"))).openRecord.isSome →
      (pageStep initialPage (PageEvent.openRow
        (mkRecord "TR-001" "PT-2041" "2019-03-14" "Scheduled" "stable" "Low"))).bodyOverflow = "hidden" ∧
      (pageStep initialPage (PageEvent.openRow
        (mkRecord "TR-001" "PT-2041" "2019-03-14" "Scheduled" "stable" "Low"))).keydownListener = true) ∧
    ((pageStep initialPage (PageEvent.openRow
        (mkRecord "TR-001" "PT-2041" "2019-03-14" "Scheduled" "stable" "Low"))).openRecord.isSome →
      ∀ e ∈ [PageEvent.closeControl, PageEvent.backdropClick,
          PageEvent.escapeKey, PageEvent.unmountSection],
        (pageStep (pageStep initialPage (PageEvent.openRow
          (mkRecord "TR-001" "PT-2041" "2019-03-14" "Scheduled" "stable" "Low"))) e).openRecord = none ∧
        (pageStep (pageStep initialPage (PageEvent.openRow
          (mkRecord "TR-001" "PT-2041" "2019-03-14" "Scheduled" "stable" "Low"))) e).bodyOverflow = "" ∧
        (pageStep (pageStep initialPage (PageEvent.openRow
          (mkRecord "TR-001" "PT-2041" "2019-03-14" "Scheduled" "stable" "Low"))) e).keydownListener = false) :=
  have hs := scroll_lock_exact
    (pageStep initialPage (PageEvent.openRow
      (mkRecord "TR-001" "PT-2041" "2019-03-14" "Scheduled" "stable" "Low")))
    ⟨[PageEvent.openRow (mkRecord "TR-001" "PT-2041" "2019-03-14" "Scheduled" "stable" "Low")], rfl⟩
  ⟨hs.1, hs.2.2.2⟩

/-! ## Duration formatter (modelled from the spec)

`getImplantDuration` is exported by the missing `registryData.ts`; the spec
pins its contract: given a calendar date string, return a human-readable
elapsed-time label relative to the current date in the coarsest sensible
unit (days under a month-equivalent threshold, months under a
year-equivalent threshold, otherwise years), pure and total over any
syntactically valid past date, and a placeholder dash on missing or
invalid input. -/

/-- The numeric value of a decimal digit character. -/
def digitVal (c : Char) : Nat := c.toNat - 48

/-- Gregorian leap-year test. -/
def isLeapYear (y : Nat) : Bool :=
  (y % 4 == 0 && y % 100 != 0) || y % 400 == 0

/-- Days in a calendar month. -/
def daysInMonth (y m : Nat) : Nat :=
  if m = 2 then (if isLeapYear y then 29 else 28)
  else if m = 4 ∨ m = 6 ∨ m = 9 ∨ m = 11 then 30
  else 31

/-- A parsed calendar date. -/
structure CalDate where
  year : Nat
  month : Nat
  day : Nat
deriving Repr, DecidableEq

/-- Modelled from the spec: parsing of the stored calendar date strings
(ISO `YYYY-MM-DD`, as the registry stores them); any string not of that
shape, or with an out-of-range month or day, is invalid. -/
def parseDate (s : String) : Option CalDate :=
  match s.data with
  | [y1, y2, y3, y4, h1, m1, m2, h2, d1, d2] =>
      if h1 = '-' ∧ h2 = '-' ∧
          y1.isDigit ∧ y2.isDigit ∧ y3.isDigit ∧ y4.isDigit ∧
          m1.isDigit ∧ m2.isDigit ∧ d1.isDigit ∧ d2.isDigit then
        let y := 1000 * digitVal y1 + 100 * digitVal y2 + 10 * digitVal y3 + digitVal y4
        let m := 10 * digitVal m1 + digitVal m2
        let d := 10 * digitVal d1 + digitVal d2
        if 1 ≤ m ∧ m ≤ 12 ∧ 1 ≤ d ∧ d ≤ daysInMonth y m then
          some ⟨y, m, d⟩
        else none
      else none
  | _ => none

/-- Days elapsed before the given month within a year. -/
def daysBeforeMonth (y m : Nat) : Nat :=
  ((List.range (m - 1)).map (fun i => daysInMonth y (i + 1))).sum

/-- A monotone day index for a calendar date. -/
def toDayNumber (c : CalDate) : Nat :=
  365 * c.year + (c.year / 4 - c.year / 100 + c.year / 400) +
    daysBeforeMonth c.year c.month + (c.day - 1)

/-- Modelled from the spec: `getImplantDuration` from the missing
`registryData.ts` — the elapsed-duration label relative to `now`,
in days under a month-equivalent threshold, months under a
year-equivalent threshold, otherwise years with one decimal; a
placeholder dash on missing or invalid input. -/
def getImplantDuration (now : CalDate) (s : String) : String :=
  match parseDate s with
  | none => "—"
  | some d =>
      let days := toDayNumber now - toDayNumber d
      if days < 30 then toString days ++ " days"
      else if days < 365 then toString (days / 30) ++ " months"
      else toString (days / 365) ++ "." ++ toString (days % 365 * 10 / 365) ++ " yrs"

/-- A string with a nonempty suffix whose final character differs from a
target string's final character cannot equal that target. -/
theorem append_ne_of_last (a b t : String) (c : Char)
    (hb : b.data.getLast? = some c) (ht : t.data.getLast? ≠ some c) :
    a ++ b ≠ t := by
  intro he
  apply ht
  rw [← he]
  show (a.data ++ b.data).getLast? = some c
  rw [List.getLast?_append_of_ne_nil, hb]
  intro hnil
  rw [hnil] at hb
  exact Option.noConfusion hb

/-- C9: the duration formatter returns the placeholder dash exactly on
missing or syntactically invalid dates, and on every syntactically valid
date it returns a duration label — never the dash, never an
"Invalid Date" rendering (and, being a function, it is pure and total). -/
theorem duration_graceful (now : CalDate) (s : String) :
    (parseDate s = none → getImplantDuration now s = "—") ∧
    (∀ d : CalDate, parseDate s = some d →
      getImplantDuration now s ≠ "—" ∧
        getImplantDuration now s ≠ "Invalid Date") := by
  constructor
  · intro hn
    simp [getImplantDuration, hn]
  · intro d hd
    simp only [getImplantDuration, hd]
    split_ifs <;>
      exact ⟨append_ne_of_last _ _ _ 's' rfl (by decide),
        append_ne_of_last _ _ _ 's' rfl (by decide)⟩

/-- Witness for C9: a missing date and two malformed dates render the dash;
a stored registry date renders a label distinct from the dash. -/
theorem duration_graceful_witness :
    getImplantDuration ⟨2026, 10, 11⟩ "" = "—" ∧
    getImplantDuration ⟨2026, 10, 11⟩ "not-a-date" = "—" ∧
    getImplantDuration ⟨2026, 10, 11⟩ "2019-13-99" = "—" ∧
    getImplantDuration ⟨2026, 10, 11⟩ "2019-03-14" ≠ "—" :=
  ⟨(duration_graceful ⟨2026, 10, 11⟩ "").1 (by decide),
   (duration_graceful ⟨2026, 10, 11⟩ "not-a-date").1 (by decide),
   (duration_graceful ⟨2026, 10, 11⟩ "2019-13-99").1 (by decide),
   ((duration_graceful ⟨2026, 10, 11⟩ "2019-03-14").2 ⟨2019, 3, 14⟩ (by decide)).1⟩

end Thodar
